import Mathlib

/-!
Shallow embedding of the event-relay core of `main.py` (WeChatRobot WCF HTTP
service): the receiver loop `pubsub` (lines 46-86), the subscriber registry
`app.subscribers` (a Python `set`, lines 44, 71-80, 1118, 1133), the
per-subscriber sink (an unbounded `asyncio.Queue` fed by the closure
`subscriber`, lines 1113-1117) and the SSE consumer loop `event_generator`
(lines 1120-1135), plus the `lifespan` startup sequence (lines 41-93).

Subscribers are identified by opaque handles (`SubId`); queues are modelled as
a total map from handles to lists of events (the queue contents, front first).
-/

namespace WeChatRobot

/-- Normalized event record: the dict built at lines 55-69 of `main.py`. -/
structure InboundEvent where
  id : Int
  ts : Int
  sign : String
  type : Int
  xml : String
  sender : String
  roomid : String
  content : String
  thumb : String
  extra : String
  is_at : Bool
  is_self : Bool
  is_group : Bool
deriving DecidableEq, Repr

/-- Raw `wcferry.WxMsg` as the code consumes it: its plain fields plus the
results of its three methods (`is_at` takes the self wxid; `from_self` and
`from_group` take no argument), which are external collaborators. -/
structure WxMsg where
  id : Int
  ts : Int
  sign : String
  type : Int
  xml : String
  sender : String
  roomid : String
  content : String
  thumb : String
  extra : String
  is_at : String → Bool
  from_self : Bool
  from_group : Bool

/-- Lines 55-69: the receiver loop rebuilds the message as a dict, copying every
field and computing the three derived booleans (`is_at` against
`app.wcf.self_wxid`). -/
def normalize (self_wxid : String) (m : WxMsg) : InboundEvent :=
  { id := m.id, ts := m.ts, sign := m.sign, type := m.type, xml := m.xml,
    sender := m.sender, roomid := m.roomid, content := m.content,
    thumb := m.thumb, extra := m.extra,
    is_at := m.is_at self_wxid, is_self := m.from_self, is_group := m.from_group }

/-- Opaque subscriber handle (one per `subscriber` closure created at line 1115). -/
abbrev SubId := Nat

namespace Registry

/-- `app.subscribers.add(s)` (lines 76, 1118): Python `set.add`, a no-op when the
element is already present. The list models the set's contents. -/
def add (l : List SubId) (s : SubId) : List SubId :=
  if s ∈ l then l else l ++ [s]

/-- `app.subscribers.discard(s)` (lines 80, 1133): Python `set.discard`, a total
operation that removes the element when present and does nothing otherwise —
it never raises. -/
def discard (l : List SubId) (s : SubId) : List SubId :=
  l.filter (fun t => t != s)

end Registry

/-- Pointwise queue-map update (the state change of one `put_nowait`). -/
def updQ (qs : SubId → List InboundEvent) (s : SubId) (v : List InboundEvent) :
    SubId → List InboundEvent :=
  fun t => if t = s then v else qs t

/-- `asyncio.Queue.put_nowait`: raises `QueueFull` exactly when the queue is
bounded (`maxsize > 0`) and full; otherwise appends the whole item at the back.
Line 1113 constructs `asyncio.Queue()`, i.e. `maxsize = 0` (unbounded). -/
def put_nowait (maxsize : Nat) (q : List InboundEvent) (e : InboundEvent) :
    Except Unit (List InboundEvent) :=
  if 0 < maxsize ∧ maxsize ≤ q.length then .error () else .ok (q ++ [e])

/-- Lines 1115-1117: the per-subscriber closure `subscriber(msg)` pushes the
message onto its own queue with `put_nowait` on the unbounded queue of line
1113. An exception leaves the queue map unchanged. -/
def subscriber (qs : SubId → List InboundEvent) (s : SubId) (msg : InboundEvent) :
    Except Unit (SubId → List InboundEvent) :=
  match put_nowait 0 (qs s) msg with
  | .ok q => .ok (updQ qs s q)
  | .error u => .error u

/-- One delivery attempt `subscriber(msg)` inside the fan-out loop (line 74),
with `fails` the oracle saying whether that call raises (the code catches any
`Exception`, line 75). When it does not raise, the effect is the closure's
`put_nowait`: the whole event is appended once to that subscriber's queue. -/
def deliverTo (fails : SubId → InboundEvent → Bool)
    (qs : SubId → List InboundEvent) (s : SubId) (e : InboundEvent) :
    Except Unit (SubId → List InboundEvent) :=
  if fails s e then .error () else .ok (updQ qs s (qs s ++ [e]))

/-- Lines 71-78: the fan-out `for subscriber in app.subscribers` loop body,
sequentially over the iteration order `subs`; a failing delivery is caught and
the sink added to `dead_subscribers` (a set), others continue. Returns the
final queue map and the dead set. -/
def fanout (fails : SubId → InboundEvent → Bool) (e : InboundEvent) :
    List SubId → (SubId → List InboundEvent) → List SubId →
    (SubId → List InboundEvent) × List SubId
  | [], qs, dead => (qs, dead)
  | s :: rest, qs, dead =>
    match deliverTo fails qs s e with
    | .ok qs' => fanout fails e rest qs' dead
    | .error _ => fanout fails e rest qs (Registry.add dead s)

/-- The registry plus all sink queues (`app.subscribers` and the per-request
`msg_queue`s alive in the process). -/
structure AppState where
  subscribers : List SubId
  queues : SubId → List InboundEvent

/-- Lines 71-80: one full dispatch pass for event `e` — fan out to the
subscribers, then `for dead in dead_subscribers: app.subscribers.discard(dead)`
after the pass completes. -/
def dispatchPass (fails : SubId → InboundEvent → Bool) (e : InboundEvent)
    (st : AppState) : AppState :=
  let r := fanout fails e st.subscribers st.queues []
  { subscribers := r.2.foldl Registry.discard st.subscribers, queues := r.1 }

/-- A sequence of dispatch passes, one per arriving event, in arrival order. -/
def dispatchSeq (fails : SubId → InboundEvent → Bool)
    (events : List InboundEvent) (st : AppState) : AppState :=
  events.foldl (fun s e => dispatchPass fails e s) st

/-- A concrete event for evaluating the model. -/
def evA : InboundEvent :=
  { id := 1, ts := 10, sign := "sg", type := 1, xml := "", sender := "alice",
    roomid := "", content := "hi", thumb := "", extra := "",
    is_at := false, is_self := false, is_group := false }

/-- A second concrete event. -/
def evB : InboundEvent :=
  { evA with id := 2, content := "bye" }

/-- Three registered subscribers with empty queues. -/
def stW : AppState := { subscribers := [0, 1, 2], queues := fun _ => [] }

/-- Delivery oracle under which no subscriber call raises. -/
def failsNone : SubId → InboundEvent → Bool := fun _ _ => false

/-- Delivery oracle under which exactly subscriber 2 raises. -/
def failsTwo : SubId → InboundEvent → Bool := fun s _ => s == 2

/-- A state with one subscriber whose queue is already long (a slow consumer). -/
def stSlow : AppState :=
  { subscribers := [0, 1],
    queues := fun t => if t = 0 then List.replicate 1000 evA else [] }

/-- Outcome of one `wcf.get_msg()` attempt inside the receiver loop's `try`
block: a message, the `queue.Empty` exception (line 81), or any other
exception raised while fetching, normalizing or dispatching (line 84). -/
inductive FetchResult
  | gotMsg (m : WxMsg)
  | empty
  | err

/-- One iteration of the receiver loop as the external client presents it: the
`wcf.is_receiving_msg()` value read by the `while` condition (line 48), the one
read by the body's guard (line 49), and the fetch outcome. -/
structure ReceiverTick where
  recvTop : Bool
  recvInner : Bool
  fetch : FetchResult

/-- Receiver-loop status: `RUNNING` while iterating, `STOPPED` once the `while`
condition observed delivery disabled. -/
inductive LoopStatus
  | RUNNING
  | STOPPED
deriving DecidableEq, Repr

/-- Lines 48-86: the `pubsub` receiver loop over a finite trace of client
observations. Carries the app state and the count of 1-second backoff sleeps
performed (`time.sleep(1)` at lines 51 and 82). `while wcf.is_receiving_msg():`
stops the loop when false; the body's own guard sleeps and continues; `except
Empty` sleeps and continues; any other exception is logged and the loop
continues without sleeping; a fetched message is normalized and dispatched.
If the trace runs out the loop is still running. -/
def pubsub (self_wxid : String) (fails : SubId → InboundEvent → Bool) :
    List ReceiverTick → AppState → Nat → LoopStatus × AppState × Nat
  | [], st, sl => (LoopStatus.RUNNING, st, sl)
  | t :: rest, st, sl =>
    if t.recvTop then
      if t.recvInner then
        match t.fetch with
        | FetchResult.gotMsg m =>
            pubsub self_wxid fails rest
              (dispatchPass fails (normalize self_wxid m) st) sl
        | FetchResult.empty => pubsub self_wxid fails rest st (sl + 1)
        | FetchResult.err => pubsub self_wxid fails rest st sl
      else pubsub self_wxid fails rest st (sl + 1)
    else (LoopStatus.STOPPED, st, sl)

/-- How one iteration of `event_generator` (lines 1122-1129) ends: the
disconnect check returned true (`break`), an item was received and yielded
(loop continues), or an exception escaped (transport failure or cancellation
of the generator). -/
inductive IterOutcome
  | disconnected
  | delivered
  | raised
deriving DecidableEq, Repr

/-- Which exit path the consumer loop took. -/
inductive ExitKind
  | normalBreak
  | viaException
deriving DecidableEq, Repr

/-- The `while True` body of `event_generator`: it ends at the first
`disconnected` check (normal `break`) or the first escaping exception;
`delivered` iterations continue. `none` means the loop is still running. -/
def event_generator_body : List IterOutcome → Option ExitKind
  | [] => none
  | IterOutcome.disconnected :: _ => some ExitKind.normalBreak
  | IterOutcome.delivered :: rest => event_generator_body rest
  | IterOutcome.raised :: _ => some ExitKind.viaException

/-- Lines 1120-1133: once the loop body ends — by `break` or by an exception
(the `except` clause only logs) — the `finally` clause runs
`app.subscribers.discard(subscriber)` unconditionally. `none` when the loop has
not exited. -/
def event_generator_exit (s : SubId) (outs : List IterOutcome)
    (st : AppState) : Option AppState :=
  match event_generator_body outs with
  | none => none
  | some _ => some { st with subscribers := Registry.discard st.subscribers s }

/-- Registry with subscribers 5 and 7 attached. -/
def stC4 : AppState := { subscribers := [5, 7], queues := fun _ => [] }

/-- `stC4` after subscriber 5's generator exited and its `finally` ran. -/
def stC4x : AppState :=
  { stC4 with subscribers := Registry.discard stC4.subscribers 5 }

/-- Where the `event_generator` loop currently is: about to run the
`request.is_disconnected()` check of line 1123, suspended in
`await msg_queue.get()` of line 1125, or exited. -/
inductive ConsumerPhase
  | checking
  | waiting
  | done
deriving DecidableEq, Repr

/-- Consumer-loop state: its phase and its queue's contents. -/
structure ConsumerState where
  phase : ConsumerPhase
  queue : List InboundEvent
deriving DecidableEq, Repr

/-- Events the consumer loop can experience: it performs the disconnect check
(with the transport's current answer), it completes `await msg_queue.get()`
(only possible when the queue is non-empty), or the dispatcher enqueues an
event into its queue. -/
inductive ConsumerEvent
  | stepCheck (disconnected : Bool)
  | stepGet
  | enqueue (e : InboundEvent)

/-- Small-step semantics of lines 1122-1125. The loop checks
`request.is_disconnected()` once per iteration, then suspends in
`await msg_queue.get()`; `get` on an empty `asyncio.Queue` cannot complete, so
a `waiting` consumer with an empty queue has no enabled step other than an
external `enqueue`. -/
def consumerStep : ConsumerEvent → ConsumerState → Option ConsumerState
  | ConsumerEvent.stepCheck d, ⟨ConsumerPhase.checking, q⟩ =>
      some ⟨if d then ConsumerPhase.done else ConsumerPhase.waiting, q⟩
  | ConsumerEvent.stepCheck _, _ => none
  | ConsumerEvent.stepGet, ⟨ConsumerPhase.waiting, []⟩ => none
  | ConsumerEvent.stepGet, ⟨ConsumerPhase.waiting, _ :: q⟩ =>
      some ⟨ConsumerPhase.checking, q⟩
  | ConsumerEvent.stepGet, _ => none
  | ConsumerEvent.enqueue _, ⟨ConsumerPhase.done, _⟩ => none
  | ConsumerEvent.enqueue e, ⟨ph, q⟩ => some ⟨ph, q ++ [e]⟩

/-- Run the consumer over a sequence of events; `none` as soon as a step is not
enabled (the loop is blocked there). -/
def runConsumer : List ConsumerEvent → ConsumerState → Option ConsumerState
  | [], c => some c
  | ev :: rest, c =>
    match consumerStep ev c with
    | none => none
    | some c2 => runConsumer rest c2

/-- The observable steps of the startup sequence in `lifespan` (lines 41-93). -/
inductive StartupAction
  | connectClient
  | initRegistry
  | captureIdentity
  | enableDelivery
  | sendReadiness
  | spawnReceiverLoop
deriving DecidableEq, Repr

/-- Lines 43-44, 88-91: the main-thread statements of `lifespan` before
`yield`, in program order: `app.wcf = Wcf(debug=True)` (connect),
`app.subscribers = set()`, `app.wcf.send_text("WCF HTTP 服务已启动",
"filehelper")` (the readiness notification), `thread.start()` (spawn). -/
def lifespanMainActions : List StartupAction :=
  [StartupAction.connectClient, StartupAction.initRegistry,
   StartupAction.sendReadiness, StartupAction.spawnReceiverLoop]

/-- Line 47: the first statement executed by the spawned thread is
`wcf.enable_receiving_msg(pyq=True)`. -/
def pubsubFirstAction : StartupAction := StartupAction.enableDelivery

/-- The happens-before order of startup actions: the main-thread statements,
then the spawned thread's first action (which can only run after
`thread.start()`). No statement of `lifespan` reads `self_wxid` or any
contact list: the self identifier is read lazily at line 66, per message. -/
def lifespanStartupTrace : List StartupAction :=
  lifespanMainActions ++ [pubsubFirstAction]

/-- Modelled from the spec: the startup order the claim asserts — connect,
capture the identity snapshot, enable delivery, send the readiness
notification, and only then spawn the receiver loop. Stated for comparison
with `lifespanStartupTrace`, which is read off the source. -/
def claimedStartupOrder : List StartupAction :=
  [StartupAction.connectClient, StartupAction.captureIdentity,
   StartupAction.enableDelivery, StartupAction.sendReadiness,
   StartupAction.spawnReceiverLoop]

/-- Interleaved actions during one dispatch pass: the dispatcher advances its
`for subscriber in app.subscribers` iterator by one, or a concurrent request
handler runs `app.subscribers.add` (line 1118) or `app.subscribers.discard`
(line 1133). -/
inductive PassAction
  | deliver
  | register (s : SubId)
  | unregister (s : SubId)

/-- Mid-pass dispatcher state: the live registry, the queues, the elements the
live-set iterator has not yet yielded, the set's size when the iterator was
created, and the `dead_subscribers` accumulator. -/
structure PassIter where
  registry : List SubId
  queues : SubId → List InboundEvent
  remaining : List SubId
  createdSize : Nat
  dead : List SubId

/-- Line 72: the `for` statement creates an iterator over the live
`app.subscribers` — not over a copy. -/
def startPass (st : AppState) : PassIter :=
  { registry := st.subscribers, queues := st.queues,
    remaining := st.subscribers, createdSize := st.subscribers.length,
    dead := [] }

/-- One interleaved step of the pass. A CPython set iterator compares the
set's current size against its size at creation on every advance and raises
`RuntimeError: Set changed size during iteration` when they differ; that is
the `.error` case. When the iterator is exhausted the pass ends and the
dispatcher purges `dead_subscribers` (lines 79-80), yielding the final state. -/
def passStep (fails : SubId → InboundEvent → Bool) (e : InboundEvent) :
    PassAction → PassIter → Except Unit (PassIter ⊕ AppState)
  | PassAction.register s, p =>
      .ok (.inl { p with registry := Registry.add p.registry s })
  | PassAction.unregister s, p =>
      .ok (.inl { p with registry := Registry.discard p.registry s })
  | PassAction.deliver, p =>
    if p.registry.length ≠ p.createdSize then .error ()
    else
      match p.remaining with
      | [] =>
          .ok (.inr { subscribers := p.dead.foldl Registry.discard p.registry,
                      queues := p.queues })
      | s :: rest =>
        match deliverTo fails p.queues s e with
        | .ok qs => .ok (.inl { p with queues := qs, remaining := rest })
        | .error _ =>
            .ok (.inl { p with remaining := rest, dead := Registry.add p.dead s })

/-- Run a pass under a given interleaving: `.error` models the `RuntimeError`
raised by the live-set iteration (it aborts the pass; the outer handler at
line 84 merely logs it, so the remaining sinks never receive the event);
`.ok (some st)` is a completed pass; `.ok none` a pass still in progress. -/
def runPass (fails : SubId → InboundEvent → Bool) (e : InboundEvent) :
    List PassAction → PassIter → Except Unit (Option AppState)
  | [], _ => .ok none
  | a :: rest, p =>
    match passStep fails e a p with
    | .error u => .error u
    | .ok (.inr st) => .ok (some st)
    | .ok (.inl p2) => runPass fails e rest p2

/-- One registered subscriber, empty queues: the pass the C2 interleaving runs
against. -/
def stOne : AppState := { subscribers := [1], queues := fun _ => [] }

/-- Two registered subscribers, empty queues. -/
def stPair : AppState := { subscribers := [1, 2], queues := fun _ => [] }

/-! ## Theorems -/

theorem Registry.mem_add {l : List SubId} {s t : SubId} :
    t ∈ Registry.add l s ↔ t ∈ l ∨ t = s := by
  by_cases h : s ∈ l
  · simp only [Registry.add, if_pos h]
    constructor
    · exact Or.inl
    · rintro (ht | rfl)
      · exact ht
      · exact h
  · simp [Registry.add, if_neg h, List.mem_append]

theorem Registry.mem_discard {l : List SubId} {s t : SubId} :
    t ∈ Registry.discard l s ↔ t ∈ l ∧ t ≠ s := by
  simp [Registry.discard, List.mem_filter]

theorem Registry.discard_nodup {l : List SubId} (h : l.Nodup) (s : SubId) :
    (Registry.discard l s).Nodup :=
  h.filter _

theorem Registry.mem_foldl_discard (dead : List SubId) (subs : List SubId)
    (t : SubId) :
    t ∈ dead.foldl Registry.discard subs ↔ t ∈ subs ∧ t ∉ dead := by
  induction dead generalizing subs with
  | nil => simp
  | cons d ds ih =>
    simp only [List.foldl_cons, ih, Registry.mem_discard, List.mem_cons]
    tauto

theorem Registry.foldl_discard_nodup (dead : List SubId) (subs : List SubId)
    (h : subs.Nodup) : (dead.foldl Registry.discard subs).Nodup := by
  induction dead generalizing subs with
  | nil => exact h
  | cons d ds ih => exact ih _ (Registry.discard_nodup h d)

theorem updQ_same (qs : SubId → List InboundEvent) (s : SubId)
    (v : List InboundEvent) : updQ qs s v s = v := by
  simp [updQ]

theorem updQ_other (qs : SubId → List InboundEvent) (s t : SubId)
    (v : List InboundEvent) (h : t ≠ s) : updQ qs s v t = qs t := by
  simp [updQ, h]

theorem fanout_cons_true (fails : SubId → InboundEvent → Bool)
    (e : InboundEvent) (a : SubId) (rest : List SubId)
    (qs : SubId → List InboundEvent) (dead : List SubId)
    (hf : fails a e = true) :
    fanout fails e (a :: rest) qs dead =
      fanout fails e rest qs (Registry.add dead a) := by
  simp [fanout, deliverTo, hf]

theorem fanout_cons_false (fails : SubId → InboundEvent → Bool)
    (e : InboundEvent) (a : SubId) (rest : List SubId)
    (qs : SubId → List InboundEvent) (dead : List SubId)
    (hf : fails a e = false) :
    fanout fails e (a :: rest) qs dead =
      fanout fails e rest (updQ qs a (qs a ++ [e])) dead := by
  simp [fanout, deliverTo, hf]

theorem fanout_queues_not_mem (fails : SubId → InboundEvent → Bool)
    (e : InboundEvent) (subs : List SubId) (qs : SubId → List InboundEvent)
    (dead : List SubId) (s : SubId) (h : s ∉ subs) :
    (fanout fails e subs qs dead).1 s = qs s := by
  induction subs generalizing qs dead with
  | nil => rfl
  | cons a rest ih =>
    have hne : s ≠ a := fun hsa => h (hsa ▸ List.mem_cons_self a rest)
    have hrest : s ∉ rest := fun hr => h (List.mem_cons_of_mem a hr)
    cases hf : fails a e with
    | true =>
      rw [fanout_cons_true _ _ _ _ _ _ hf]
      exact ih _ _ hrest
    | false =>
      rw [fanout_cons_false _ _ _ _ _ _ hf, ih _ _ hrest,
        updQ_other _ _ _ _ hne]

theorem fanout_dead_mem (fails : SubId → InboundEvent → Bool) (e : InboundEvent)
    (subs : List SubId) (qs : SubId → List InboundEvent) (dead : List SubId)
    (t : SubId) :
    t ∈ (fanout fails e subs qs dead).2 ↔
      t ∈ dead ∨ (t ∈ subs ∧ fails t e = true) := by
  induction subs generalizing qs dead with
  | nil => simp [fanout]
  | cons a rest ih =>
    cases hf : fails a e with
    | true =>
      rw [fanout_cons_true _ _ _ _ _ _ hf, ih, Registry.mem_add]
      simp only [List.mem_cons]
      by_cases hta : t = a
      · subst hta
        simp [hf]
      · simp [hta]
    | false =>
      rw [fanout_cons_false _ _ _ _ _ _ hf, ih]
      simp only [List.mem_cons]
      by_cases hta : t = a
      · subst hta
        simp [hf]
      · simp [hta]

theorem fanout_queues_mem (fails : SubId → InboundEvent → Bool)
    (e : InboundEvent) (subs : List SubId) (qs : SubId → List InboundEvent)
    (dead : List SubId) (s : SubId) (hnd : subs.Nodup) (hs : s ∈ subs) :
    (fanout fails e subs qs dead).1 s =
      if fails s e then qs s else qs s ++ [e] := by
  induction subs generalizing qs dead with
  | nil => cases hs
  | cons a rest ih =>
    rcases List.mem_cons.mp hs with rfl | hsr
    · have hrest : s ∉ rest := (List.nodup_cons.mp hnd).1
      cases hf : fails s e with
      | true =>
        rw [fanout_cons_true _ _ _ _ _ _ hf,
          fanout_queues_not_mem _ _ _ _ _ _ hrest]
        simp
      | false =>
        rw [fanout_cons_false _ _ _ _ _ _ hf,
          fanout_queues_not_mem _ _ _ _ _ _ hrest, updQ_same]
        simp
    · have hne : s ≠ a := by
        rintro rfl
        exact (List.nodup_cons.mp hnd).1 hsr
      have hnd2 : rest.Nodup := (List.nodup_cons.mp hnd).2
      cases hf : fails a e with
      | true =>
        rw [fanout_cons_true _ _ _ _ _ _ hf]
        exact ih _ _ hnd2 hsr
      | false =>
        rw [fanout_cons_false _ _ _ _ _ _ hf, ih _ _ hnd2 hsr]
        simp only [updQ_other _ _ _ _ hne]

theorem dispatchPass_queues_not_mem (fails : SubId → InboundEvent → Bool)
    (e : InboundEvent) (st : AppState) (s : SubId) (h : s ∉ st.subscribers) :
    (dispatchPass fails e st).queues s = st.queues s :=
  fanout_queues_not_mem fails e st.subscribers st.queues [] s h

theorem dispatchPass_queues_mem (fails : SubId → InboundEvent → Bool)
    (e : InboundEvent) (st : AppState) (s : SubId)
    (hnd : st.subscribers.Nodup) (hs : s ∈ st.subscribers) :
    (dispatchPass fails e st).queues s =
      if fails s e then st.queues s else st.queues s ++ [e] :=
  fanout_queues_mem fails e st.subscribers st.queues [] s hnd hs

theorem dispatchPass_mem (fails : SubId → InboundEvent → Bool)
    (e : InboundEvent) (st : AppState) (t : SubId) :
    t ∈ (dispatchPass fails e st).subscribers ↔
      t ∈ st.subscribers ∧ fails t e = false := by
  simp only [dispatchPass, Registry.mem_foldl_discard, fanout_dead_mem]
  constructor
  · rintro ⟨hm, hd⟩
    refine ⟨hm, ?_⟩
    by_contra hft
    simp only [Bool.not_eq_false] at hft
    exact hd (Or.inr ⟨hm, hft⟩)
  · rintro ⟨hm, hf⟩
    refine ⟨hm, ?_⟩
    rintro (h | ⟨-, hft⟩)
    · cases h
    · rw [hf] at hft
      cases hft

theorem dispatchPass_nodup (fails : SubId → InboundEvent → Bool)
    (e : InboundEvent) (st : AppState) (h : st.subscribers.Nodup) :
    (dispatchPass fails e st).subscribers.Nodup :=
  Registry.foldl_discard_nodup _ _ h

theorem dispatchPass_queues_ok (fails : SubId → InboundEvent → Bool)
    (e : InboundEvent) (st : AppState) (s : SubId)
    (hnd : st.subscribers.Nodup) (hs : s ∈ st.subscribers)
    (hf : fails s e = false) :
    (dispatchPass fails e st).queues s = st.queues s ++ [e] := by
  rw [dispatchPass_queues_mem fails e st s hnd hs, hf]
  simp

theorem dispatchPass_queues_fail (fails : SubId → InboundEvent → Bool)
    (e : InboundEvent) (st : AppState) (s : SubId)
    (hnd : st.subscribers.Nodup) (hs : s ∈ st.subscribers)
    (hf : fails s e = true) :
    (dispatchPass fails e st).queues s = st.queues s := by
  rw [dispatchPass_queues_mem fails e st s hnd hs, hf]
  simp

theorem dispatchSeq_cons (fails : SubId → InboundEvent → Bool)
    (e : InboundEvent) (rest : List InboundEvent) (st : AppState) :
    dispatchSeq fails (e :: rest) st =
      dispatchSeq fails rest (dispatchPass fails e st) := rfl

/-- Core fan-out correctness, shared by several claims: a subscriber that is
registered and whose deliveries never raise across a sequence of passes ends
with its queue extended by exactly the arrival sequence, stays registered, and
the registry stays duplicate-free. -/
theorem dispatchSeq_delivers (fails : SubId → InboundEvent → Bool)
    (events : List InboundEvent) (st : AppState) (s : SubId)
    (hnd : st.subscribers.Nodup) (hs : s ∈ st.subscribers)
    (hok : ∀ e ∈ events, fails s e = false) :
    (dispatchSeq fails events st).queues s = st.queues s ++ events
    ∧ s ∈ (dispatchSeq fails events st).subscribers
    ∧ (dispatchSeq fails events st).subscribers.Nodup := by
  induction events generalizing st with
  | nil => exact ⟨by simp [dispatchSeq], hs, hnd⟩
  | cons e rest ih =>
    have hf : fails s e = false := hok e (List.mem_cons_self e rest)
    have hq := dispatchPass_queues_ok fails e st s hnd hs hf
    have hmem : s ∈ (dispatchPass fails e st).subscribers :=
      (dispatchPass_mem fails e st s).mpr ⟨hs, hf⟩
    have hnd2 := dispatchPass_nodup fails e st hnd
    have hok2 : ∀ x ∈ rest, fails s x = false :=
      fun x hx => hok x (List.mem_cons_of_mem e hx)
    obtain ⟨ihq, ihm, ihn⟩ := ih (dispatchPass fails e st) hnd2 hmem hok2
    refine ⟨?_, ?_, ?_⟩
    · rw [dispatchSeq_cons, ihq, hq, List.append_assoc]
      rfl
    · rw [dispatchSeq_cons]
      exact ihm
    · rw [dispatchSeq_cons]
      exact ihn

/-- A handle that is not registered is untouched by any sequence of passes:
its queue does not grow and it never re-appears in the registry. -/
theorem dispatchSeq_not_mem (fails : SubId → InboundEvent → Bool)
    (events : List InboundEvent) (st : AppState) (s : SubId)
    (h : s ∉ st.subscribers) :
    (dispatchSeq fails events st).queues s = st.queues s
    ∧ s ∉ (dispatchSeq fails events st).subscribers := by
  induction events generalizing st with
  | nil => exact ⟨rfl, h⟩
  | cons e rest ih =>
    have h1 : s ∉ (dispatchPass fails e st).subscribers :=
      fun hm => h ((dispatchPass_mem fails e st s).mp hm).1
    have hq : (dispatchPass fails e st).queues s = st.queues s :=
      dispatchPass_queues_not_mem fails e st s h
    obtain ⟨iq, im⟩ := ih (dispatchPass fails e st) h1
    rw [dispatchSeq_cons]
    exact ⟨by rw [iq, hq], im⟩

/-- With no delivery failing (the actual closure over an unbounded queue never
raises), the fan-out marks nobody dead. -/
theorem fanout_no_fail_dead (e : InboundEvent) (subs : List SubId)
    (qs : SubId → List InboundEvent) (dead : List SubId) :
    (fanout (fun _ _ => false) e subs qs dead).2 = dead := by
  induction subs generalizing qs dead with
  | nil => rfl
  | cons a rest ih =>
    rw [fanout_cons_false _ _ _ _ _ _ rfl]
    exact ih _ _

/-- Claim C1: for a subscriber registered before dispatch starts that stays
registered (its deliveries never raise, and nothing unregisters it), a sequence
of dispatched events lands in its queue exactly once each, fields unchanged, in
strict FIFO order with respect to the global arrival order. -/
theorem dispatch_exactly_once_fifo (fails : SubId → InboundEvent → Bool)
    (events : List InboundEvent) (st : AppState) (s : SubId)
    (hnd : st.subscribers.Nodup) (hs : s ∈ st.subscribers)
    (hok : ∀ e ∈ events, fails s e = false) :
    (dispatchSeq fails events st).queues s = st.queues s ++ events
    ∧ s ∈ (dispatchSeq fails events st).subscribers :=
  ⟨(dispatchSeq_delivers fails events st s hnd hs hok).1,
   (dispatchSeq_delivers fails events st s hnd hs hok).2.1⟩

/-- Witness for C1: subscriber 1 of three receives both dispatched events, in
arrival order. -/
theorem dispatch_exactly_once_fifo_witness :
    (dispatchSeq failsNone [evA, evB] stW).queues 1 = stW.queues 1 ++ [evA, evB]
    ∧ 1 ∈ (dispatchSeq failsNone [evA, evB] stW).subscribers :=
  dispatch_exactly_once_fifo failsNone [evA, evB] stW 1 (by decide) (by decide)
    (fun _ _ => rfl)

/-- Claim C3: during one pass a per-sink delivery failure is caught: the failing
sink is unregistered only after the pass and its queue is untouched, while every
other registered sink still receives that event and, if it keeps succeeding,
subsequent events as well. -/
theorem dispatchPass_isolates_failure (fails : SubId → InboundEvent → Bool)
    (e e2 : InboundEvent) (st : AppState) (s : SubId)
    (hnd : st.subscribers.Nodup) (hs : s ∈ st.subscribers) :
    (fails s e = true →
      s ∉ (dispatchPass fails e st).subscribers
      ∧ (dispatchPass fails e st).queues s = st.queues s)
    ∧ (fails s e = false →
      (dispatchPass fails e st).queues s = st.queues s ++ [e]
      ∧ s ∈ (dispatchPass fails e st).subscribers)
    ∧ (fails s e = false → fails s e2 = false →
      (dispatchSeq fails [e, e2] st).queues s = st.queues s ++ [e, e2]) := by
  refine ⟨fun hf => ⟨?_, ?_⟩, fun hf => ⟨?_, ?_⟩, fun hf hf2 => ?_⟩
  · intro hmem
    have := ((dispatchPass_mem fails e st s).mp hmem).2
    rw [hf] at this
    cases this
  · exact dispatchPass_queues_fail fails e st s hnd hs hf
  · exact dispatchPass_queues_ok fails e st s hnd hs hf
  · exact (dispatchPass_mem fails e st s).mpr ⟨hs, hf⟩
  · refine (dispatchSeq_delivers fails [e, e2] st s hnd hs ?_).1
    intro x hx
    rcases List.mem_cons.mp hx with rfl | hx2
    · exact hf
    · rcases List.mem_cons.mp hx2 with rfl | hx3
      · exact hf2
      · cases hx3

/-- Witness for C3: with subscribers 0, 1, 2 and subscriber 2 failing,
subscriber 2 is purged with its queue untouched while subscriber 1 receives
the event and the next one. -/
theorem dispatchPass_isolates_failure_witness :
    (2 ∉ (dispatchPass failsTwo evA stW).subscribers
      ∧ (dispatchPass failsTwo evA stW).queues 2 = stW.queues 2)
    ∧ ((dispatchPass failsTwo evA stW).queues 1 = stW.queues 1 ++ [evA]
      ∧ 1 ∈ (dispatchPass failsTwo evA stW).subscribers)
    ∧ (dispatchSeq failsTwo [evA, evB] stW).queues 1
        = stW.queues 1 ++ [evA, evB] :=
  ⟨(dispatchPass_isolates_failure failsTwo evA evB stW 2 (by decide)
      (by decide)).1 rfl,
   (dispatchPass_isolates_failure failsTwo evA evB stW 1 (by decide)
      (by decide)).2.1 rfl,
   (dispatchPass_isolates_failure failsTwo evA evB stW 1 (by decide)
      (by decide)).2.2 rfl rfl⟩

/-- Claim C7: the producer side is `put_nowait` on an unbounded queue: it
succeeds whatever the queue already holds (never waits on the consumer), the
`subscriber` closure therefore always appends the whole event, and a dispatch
pass with such sinks reaches every registered subscriber and removes nobody,
regardless of how long any queue has grown. -/
theorem put_nowait_nonblocking (st : AppState) (e : InboundEvent) (s : SubId)
    (hnd : st.subscribers.Nodup) (hs : s ∈ st.subscribers) :
    (∀ q : List InboundEvent, put_nowait 0 q e = Except.ok (q ++ [e]))
    ∧ (∀ (qs : SubId → List InboundEvent) (t : SubId),
        subscriber qs t e = Except.ok (updQ qs t (qs t ++ [e])))
    ∧ (dispatchPass (fun _ _ => false) e st).queues s = st.queues s ++ [e]
    ∧ (dispatchPass (fun _ _ => false) e st).subscribers = st.subscribers := by
  refine ⟨fun q => ?_, fun qs t => ?_, ?_, ?_⟩
  · simp [put_nowait]
  · simp [subscriber, put_nowait]
  · exact dispatchPass_queues_ok _ e st s hnd hs rfl
  · show ((fanout _ e st.subscribers st.queues []).2.foldl
      Registry.discard st.subscribers) = st.subscribers
    rw [fanout_no_fail_dead]
    rfl

/-- Witness for C7: even with subscriber 0's queue holding 1000 undelivered
events, the push appends and the pass delivers to subscriber 1 and keeps both. -/
theorem put_nowait_nonblocking_witness :
    (∀ q : List InboundEvent, put_nowait 0 q evB = Except.ok (q ++ [evB]))
    ∧ (∀ (qs : SubId → List InboundEvent) (t : SubId),
        subscriber qs t evB = Except.ok (updQ qs t (qs t ++ [evB])))
    ∧ (dispatchPass (fun _ _ => false) evB stSlow).queues 1
        = stSlow.queues 1 ++ [evB]
    ∧ (dispatchPass (fun _ _ => false) evB stSlow).subscribers
        = stSlow.subscribers :=
  put_nowait_nonblocking stSlow evB 1 (by decide) (by decide)

/-- Claim C9: `set.discard` is total and idempotent: discarding an absent
subscriber leaves the registry unchanged, discarding twice equals discarding
once, and the dispatcher's purge and the sink's own cleanup can discard in
either order with the same result. -/
theorem discard_idempotent_commutes (l0 : List SubId) (s : SubId)
    (h : s ∉ l0) :
    Registry.discard l0 s = l0
    ∧ (∀ l : List SubId,
        Registry.discard (Registry.discard l s) s = Registry.discard l s)
    ∧ (∀ (l : List SubId) (t : SubId),
        Registry.discard (Registry.discard l s) t
          = Registry.discard (Registry.discard l t) s) := by
  refine ⟨?_, fun l => ?_, fun l t => ?_⟩
  · refine List.filter_eq_self.mpr fun a ha => ?_
    simp only [bne_iff_ne, ne_eq]
    rintro rfl
    exact h ha
  · simp [Registry.discard, List.filter_filter]
  · simp only [Registry.discard, List.filter_filter]
    exact List.filter_congr fun a _ => Bool.and_comm _ _

/-- Witness for C9 at a registry not containing subscriber 9. -/
theorem discard_idempotent_commutes_witness :
    Registry.discard [4, 7] 9 = [4, 7]
    ∧ (∀ l : List SubId,
        Registry.discard (Registry.discard l 9) 9 = Registry.discard l 9)
    ∧ (∀ (l : List SubId) (t : SubId),
        Registry.discard (Registry.discard l 9) t
          = Registry.discard (Registry.discard l t) 9) :=
  discard_idempotent_commutes [4, 7] 9 (by decide)

/-- Claim C10: per-sink delivery of one event is all-or-nothing: after a pass,
any subscriber's queue is either its old contents with the complete event
appended exactly once, or exactly its old contents — never a partial record. -/
theorem dispatchPass_all_or_nothing (fails : SubId → InboundEvent → Bool)
    (e : InboundEvent) (st : AppState) (s : SubId)
    (hnd : st.subscribers.Nodup) :
    (dispatchPass fails e st).queues s = st.queues s ++ [e]
    ∨ (dispatchPass fails e st).queues s = st.queues s := by
  by_cases hm : s ∈ st.subscribers
  · cases hf : fails s e with
    | true => exact Or.inr (dispatchPass_queues_fail fails e st s hnd hm hf)
    | false => exact Or.inl (dispatchPass_queues_ok fails e st s hnd hm hf)
  · exact Or.inr (dispatchPass_queues_not_mem fails e st s hm)

/-- Witness for C10: under the oracle where subscriber 2 raises, the pass left
subscriber 2's queue either appended-once or unchanged. -/
theorem dispatchPass_all_or_nothing_witness :
    (dispatchPass failsTwo evA stW).queues 2 = stW.queues 2 ++ [evA]
    ∨ (dispatchPass failsTwo evA stW).queues 2 = stW.queues 2 :=
  dispatchPass_all_or_nothing failsTwo evA stW 2 (by decide)

/-- The receiver loop reaches STOPPED exactly when some head-of-loop
observation of `wcf.is_receiving_msg()` in the trace is false: no other branch
leaves the loop. -/
theorem pubsub_stopped_iff (self_wxid : String)
    (fails : SubId → InboundEvent → Bool) (ticks : List ReceiverTick)
    (st : AppState) (sl : Nat) :
    (pubsub self_wxid fails ticks st sl).1 = LoopStatus.STOPPED
      ↔ ∃ t ∈ ticks, t.recvTop = false := by
  induction ticks generalizing st sl with
  | nil => simp [pubsub]
  | cons t rest ih =>
    cases hr : t.recvTop with
    | false =>
      refine iff_of_true ?_ ⟨t, List.mem_cons_self t rest, hr⟩
      simp [pubsub, hr]
    | true =>
      have hrhs : (∃ x ∈ t :: rest, x.recvTop = false)
          ↔ ∃ x ∈ rest, x.recvTop = false := by
        simp only [List.mem_cons]
        constructor
        · rintro ⟨x, rfl | hx, hfx⟩
          · rw [hr] at hfx
            cases hfx
          · exact ⟨x, hx, hfx⟩
        · rintro ⟨x, hx, hfx⟩
          exact ⟨x, Or.inr hx, hfx⟩
      rw [hrhs]
      cases hi : t.recvInner with
      | false =>
        rw [show pubsub self_wxid fails (t :: rest) st sl
            = pubsub self_wxid fails rest st (sl + 1) by simp [pubsub, hr, hi]]
        exact ih _ _
      | true =>
        cases hf : t.fetch with
        | gotMsg m =>
          rw [show pubsub self_wxid fails (t :: rest) st sl
              = pubsub self_wxid fails rest
                  (dispatchPass fails (normalize self_wxid m) st) sl by
            simp [pubsub, hr, hi, hf]]
          exact ih _ _
        | empty =>
          rw [show pubsub self_wxid fails (t :: rest) st sl
              = pubsub self_wxid fails rest st (sl + 1) by
            simp [pubsub, hr, hi, hf]]
          exact ih _ _
        | err =>
          rw [show pubsub self_wxid fails (t :: rest) st sl
              = pubsub self_wxid fails rest st sl by
            simp [pubsub, hr, hi, hf]]
          exact ih _ _

/-- Claim C6: the receiver loop never stops because of a per-event or
per-subscriber error: an empty fetch sleeps the fixed 1-second backoff and
retries (the loop goes on), any other per-event error is logged and the loop
continues without sleeping, and the loop reaches STOPPED exactly when an
observation of `wcf.is_receiving_msg()` at the loop head reports delivery
disabled. -/
theorem pubsub_loop_resilience (self_wxid : String)
    (fails : SubId → InboundEvent → Bool) (ticks rest : List ReceiverTick)
    (st : AppState) (sl : Nat) (b : Bool) :
    ((pubsub self_wxid fails ticks st sl).1 = LoopStatus.STOPPED
      ↔ ∃ t ∈ ticks, t.recvTop = false)
    ∧ pubsub self_wxid fails
        ({ recvTop := true, recvInner := b, fetch := FetchResult.empty } :: rest)
        st sl
      = pubsub self_wxid fails rest st (sl + 1)
    ∧ pubsub self_wxid fails
        ({ recvTop := true, recvInner := true, fetch := FetchResult.err } :: rest)
        st sl
      = pubsub self_wxid fails rest st sl := by
  refine ⟨pubsub_stopped_iff self_wxid fails ticks st sl, ?_, ?_⟩
  · cases b <;> simp [pubsub]
  · simp [pubsub]

/-- Claim C4: on every exit path of the consumer loop — normal break on
disconnect or an escaping exception (error or cancellation) — the `finally`
clause unregisters the sink; afterwards the registry no longer contains the
subscriber, and no sequence of further dispatch passes grows its queue or
re-adds it. -/
theorem event_generator_unregisters_on_exit (s : SubId)
    (outs : List IterOutcome) (st st2 : AppState)
    (hex : event_generator_exit s outs st = some st2) :
    s ∉ st2.subscribers
    ∧ ∀ (fails : SubId → InboundEvent → Bool) (events : List InboundEvent),
        (dispatchSeq fails events st2).queues s = st2.queues s
        ∧ s ∉ (dispatchSeq fails events st2).subscribers := by
  have hst : st2
      = { st with subscribers := Registry.discard st.subscribers s } := by
    unfold event_generator_exit at hex
    cases hbody : event_generator_body outs with
    | none =>
      rw [hbody] at hex
      cases hex
    | some k =>
      rw [hbody] at hex
      exact (Option.some.inj hex).symm
  have hno : s ∉ st2.subscribers := by
    rw [hst]
    simp [Registry.mem_discard]
  exact ⟨hno, fun fails events => dispatchSeq_not_mem fails events st2 s hno⟩

/-- Witness for C4: subscriber 5's generator delivers one event and then
observes a disconnect; afterwards 5 is gone from the registry and later
passes leave its queue alone. -/
theorem event_generator_unregisters_on_exit_witness :
    5 ∉ stC4x.subscribers
    ∧ ∀ (fails : SubId → InboundEvent → Bool) (events : List InboundEvent),
        (dispatchSeq fails events stC4x).queues 5 = stC4x.queues 5
        ∧ 5 ∉ (dispatchSeq fails events stC4x).subscribers :=
  event_generator_unregisters_on_exit 5
    [IterOutcome.delivered, IterOutcome.disconnected] stC4 stC4x rfl

/-- Claim C5 fails on the code: the consumer loop checks
`request.is_disconnected()` once per iteration but then suspends in
`await msg_queue.get()`; from the `waiting` phase with an empty queue neither
a disconnect check nor a get can proceed (first two conjuncts), so a
disconnected subscriber is not reaped during a period of silence — only once
a new event is enqueued does the loop advance and observe the disconnect
(third conjunct). -/
theorem consumer_blocked_during_silence :
    consumerStep ConsumerEvent.stepGet ⟨ConsumerPhase.waiting, []⟩ = none
    ∧ consumerStep (ConsumerEvent.stepCheck true)
        ⟨ConsumerPhase.waiting, []⟩ = none
    ∧ runConsumer [ConsumerEvent.enqueue evA, ConsumerEvent.stepGet,
        ConsumerEvent.stepCheck true] ⟨ConsumerPhase.waiting, []⟩
      = some ⟨ConsumerPhase.done, []⟩ :=
  ⟨rfl, rfl, rfl⟩

/-- Claim C2 fails on the code: `dispatch` iterates the live
`app.subscribers` set with no snapshot. With one subscriber registered, a
concurrent `subscribe` adding a second one mid-pass makes the dispatcher's
next iterator advance raise `RuntimeError` (first conjunct); a concurrent
unregister likewise aborts the pass, so subscriber 2 — present at pass start —
never receives the event (second conjunct); only without concurrent mutation
does the same pass complete (third conjunct). -/
theorem dispatch_live_iteration_raises :
    runPass failsNone evA [PassAction.register 2, PassAction.deliver]
        (startPass stOne) = Except.error ()
    ∧ runPass failsNone evA
        [PassAction.deliver, PassAction.unregister 1, PassAction.deliver]
        (startPass stPair) = Except.error ()
    ∧ runPass failsNone evA [PassAction.deliver, PassAction.deliver]
        (startPass stOne)
      = Except.ok
          (some { subscribers := [1], queues := updQ (fun _ => []) 1 [evA] }) :=
  ⟨rfl, rfl, rfl⟩

/-- Claim C8 counterexample: the startup trace read off `lifespan` is not the
claimed order — there is no identity/contact-snapshot step at all, and
enabling inbound delivery happens only after the receiver thread is spawned
(it is the spawned thread's first statement), not before the readiness
notification. -/
theorem lifespan_startup_order_counterexample :
    StartupAction.captureIdentity ∉ lifespanStartupTrace
    ∧ lifespanStartupTrace.indexOf StartupAction.spawnReceiverLoop
        < lifespanStartupTrace.indexOf StartupAction.enableDelivery
    ∧ lifespanStartupTrace ≠ claimedStartupOrder := by
  decide

/-- Claim C8 amended: startup establishes the client connection, initializes
the subscriber registry, sends one readiness notification through the client,
and then spawns the receiver loop as a daemon thread; enabling inbound
delivery is the spawned loop's own first action (so it follows the spawn),
and no self-identifier or contact snapshot is captured at startup. -/
theorem lifespan_startup_order :
    lifespanStartupTrace.indexOf StartupAction.connectClient
      < lifespanStartupTrace.indexOf StartupAction.initRegistry
    ∧ lifespanStartupTrace.indexOf StartupAction.initRegistry
      < lifespanStartupTrace.indexOf StartupAction.sendReadiness
    ∧ lifespanStartupTrace.indexOf StartupAction.sendReadiness
      < lifespanStartupTrace.indexOf StartupAction.spawnReceiverLoop
    ∧ lifespanStartupTrace.indexOf StartupAction.spawnReceiverLoop
      < lifespanStartupTrace.indexOf StartupAction.enableDelivery
    ∧ StartupAction.captureIdentity ∉ lifespanStartupTrace := by
  decide

end WeChatRobot
